import Mathlib

/-!
Shallow embedding of the HTTP request-routing layer of `src/main.py`
(a FastAPI service forwarding uploaded documents / pasted text to external
generation collaborators, plus a YouTube summarization pipeline).

Modelling conventions:
* A Python exception is a `PyExc`: either a FastAPI/Starlette `HTTPException`
  (status code + detail) or any other exception carried as its stringified
  message.  `str(e)` on an `HTTPException` follows Starlette's
  `__str__`, namely `"<status>: <detail>"`.
* A collaborator call that may raise is a Lean function returning
  `Except PyExc α`.
* An endpoint's observable outcome is `Except HTTPError α`: `.ok` is a 200
  response with the returned body, `.error` is the `HTTPException` FastAPI
  turns into an HTTP error response.
* Python truthiness of an `Optional[str]` (`if text:` / `if not video_id:`):
  both `None` and the empty string are falsy.
-/

/-- An HTTP error response as produced from a raised `HTTPException`:
status code and detail message. -/
structure HTTPError where
  status : Nat
  detail : String
deriving DecidableEq, Repr

/-- A Python exception value, as observable by the routing code:
either an `HTTPException` (with status and detail) or any other
exception identified by its message string. -/
inductive PyExc where
  | http (status : Nat) (detail : String)
  | other (msg : String)
deriving DecidableEq, Repr

/-- Python `str(e)` for an exception: for a Starlette `HTTPException` this is
`"<status_code>: <detail>"` (its `__str__`), for other exceptions the
carried message. -/
def strOfExc : PyExc → String
  | .http s d => toString s ++ ": " ++ d
  | .other m => m

/-- Python truthiness filter on an `Optional[str]`: `None` and `""` are
falsy; a nonempty string is returned as its truthy value. -/
def truthyOpt : Option String → Option String
  | none => none
  | some s => if s = "" then none else some s

/-- An uploaded file (`UploadFile`), as far as the router observes it:
a filename and raw content.  A present `UploadFile` object is always
truthy in Python. -/
structure UploadFile where
  filename : String
  content : String
deriving DecidableEq, Repr

/-- `FlashcardResponse` pydantic model (src/main.py lines 55-59). -/
structure FlashcardResponse where
  id : String
  question : String
  answer : String
  difficulty : String
deriving DecidableEq, Repr

/-- `MCQResponse` pydantic model (src/main.py lines 61-67). -/
structure MCQResponse where
  id : String
  question : String
  options : List String
  correct_answer : Int
  explanation : String
  difficulty : String
deriving DecidableEq, Repr

/-- `LearningStep` pydantic model (src/main.py lines 76-82). -/
structure LearningStep where
  step_number : Int
  title : String
  description : String
  estimated_time : String
  prerequisites : List String
  resources : List String
deriving DecidableEq, Repr

/-- `StickyNote` pydantic model (src/main.py lines 84-89). -/
structure StickyNote where
  id : String
  content : String
  category : String
  priority : Int
  tags : List String
deriving DecidableEq, Repr

/-- `ExamQuestion` pydantic model (src/main.py lines 91-97); the
probability score is kept abstract as a rational number. -/
structure ExamQuestion where
  id : String
  question : String
  type : String
  probability_score : Rat
  difficulty : String
  keywords : List String
deriving DecidableEq, Repr

/-- The mind-map endpoint is declared with `response_model=dict`: the
generator's output is an arbitrary JSON object that the router passes
through without inspecting it.  It is modelled as an unexamined payload. -/
structure MindMapData where
  payload : String
deriving DecidableEq, Repr

/-- The shared body of the six generate-X endpoint handlers
(src/main.py lines 146-154 and its five verbatim copies at lines
162-170, 184-192, 206-214, 228-236, 255-263): the `try` block that
picks the content source and calls the generation collaborator.
`if file:` takes the extraction collaborator's output; `elif text:`
(truthy, i.e. nonempty) takes the text unchanged; `else` raises
`HTTPException(400, "Please provide either a file or text")`. -/
def endpointBody {β : Type} (process_uploaded_file : UploadFile → Except PyExc String)
    (generate : String → Except PyExc β)
    (file : Option UploadFile) (text : Option String) : Except PyExc β :=
  match file with
  | some f =>
    match process_uploaded_file f with
    | .error e => .error e
    | .ok content => generate content
  | none =>
    match text with
    | some t =>
      if t = "" then .error (.http 400 "Please provide either a file or text")
      else generate t
    | none => .error (.http 400 "Please provide either a file or text")

/-- The shared shape of the six generate-X endpoint handlers: run the
`try` block (`endpointBody`) and, on ANY exception — the blanket
`except Exception as e` at the endpoint boundary, which also catches the
`HTTPException(400)` raised inside the `try` — re-raise
`HTTPException(500, "Error <doing X>: " ++ str(e))`.  The six handlers in
src/main.py differ only in the operation name and collaborator. -/
def generateEndpoint {β : Type} (opName : String)
    (process_uploaded_file : UploadFile → Except PyExc String)
    (generate : String → Except PyExc β)
    (file : Option UploadFile) (text : Option String) : Except HTTPError β :=
  match endpointBody process_uploaded_file generate file text with
  | .ok v => .ok v
  | .error e => .error ⟨500, "Error " ++ opName ++ ": " ++ strOfExc e⟩

/-- `create_flashcards` handler, `POST /api/generate-flashcards`
(src/main.py lines 143-157). -/
def create_flashcards (process_uploaded_file : UploadFile → Except PyExc String)
    (generate_flashcards : String → Except PyExc (List FlashcardResponse))
    (file : Option UploadFile) (text : Option String) :
    Except HTTPError (List FlashcardResponse) :=
  generateEndpoint "generating flashcards" process_uploaded_file generate_flashcards file text

/-- `create_mcqs` handler, `POST /api/generate-mcqs`
(src/main.py lines 159-173). -/
def create_mcqs (process_uploaded_file : UploadFile → Except PyExc String)
    (generate_mcqs : String → Except PyExc (List MCQResponse))
    (file : Option UploadFile) (text : Option String) :
    Except HTTPError (List MCQResponse) :=
  generateEndpoint "generating MCQs" process_uploaded_file generate_mcqs file text

/-- `create_mindmap` handler, `POST /api/generate-mindmap`
(src/main.py lines 181-195). -/
def create_mindmap (process_uploaded_file : UploadFile → Except PyExc String)
    (create_mind_map : String → Except PyExc MindMapData)
    (file : Option UploadFile) (text : Option String) :
    Except HTTPError MindMapData :=
  generateEndpoint "generating mind map" process_uploaded_file create_mind_map file text

/-- `create_learning_path` handler, `POST /api/generate-learning-path`
(src/main.py lines 203-217). -/
def create_learning_path (process_uploaded_file : UploadFile → Except PyExc String)
    (generate_learning_path : String → Except PyExc (List LearningStep))
    (file : Option UploadFile) (text : Option String) :
    Except HTTPError (List LearningStep) :=
  generateEndpoint "generating learning path" process_uploaded_file generate_learning_path file text

/-- `create_smart_sticky_notes` handler, `POST /api/generate-sticky-notes`
(src/main.py lines 225-239). -/
def create_smart_sticky_notes (process_uploaded_file : UploadFile → Except PyExc String)
    (create_sticky_notes : String → Except PyExc (List StickyNote))
    (file : Option UploadFile) (text : Option String) :
    Except HTTPError (List StickyNote) :=
  generateEndpoint "generating sticky notes" process_uploaded_file create_sticky_notes file text

/-- `create_exam_questions` handler, `POST /api/generate-exam-questions`
(src/main.py lines 252-266). -/
def create_exam_questions (process_uploaded_file : UploadFile → Except PyExc String)
    (generate_exam_questions : String → Except PyExc (List ExamQuestion))
    (file : Option UploadFile) (text : Option String) :
    Except HTTPError (List ExamQuestion) :=
  generateEndpoint "generating exam questions" process_uploaded_file generate_exam_questions file text

/-- `health_check` handler, `GET /api/health` (src/main.py lines 399-402):
returns the constant dict with keys status and version. -/
structure HealthStatus where
  status : String
  version : String
deriving DecidableEq, Repr

/-- The health check endpoint: a constant response, no inputs, no state. -/
def health_check : HealthStatus :=
  { status := "healthy", version := "1.0.0" }

/-- `VideoSummaryResponse` pydantic model (src/main.py lines 102-108). -/
structure VideoSummaryResponse where
  video_id : String
  title : String
  thumbnail : String
  summary : String
  source : String
  duration : Option String := none
deriving DecidableEq, Repr

/-- The dict returned by `yt_dlp`'s `extract_info`, restricted to the keys
the router reads with `info.get(key, default)`: a missing key is `none`
and the router substitutes the stated default. -/
structure YtInfo where
  title : Option String := none
  thumbnail : Option String := none
  duration_string : Option String := none
  uploader : Option String := none
  view_count : Option Nat := none

/-- The external collaborators of the YouTube pipeline
(`youtubefunctions` and `yt_dlp`), each modelled as a function that may
raise.  `get_video_id` is a pure URL parse returning the id or `None`. -/
structure SummarizeDeps where
  get_video_id : String → Option String
  extract_info : String → Except PyExc YtInfo
  get_transcript : String → Except PyExc (Option String)
  summarize_transcript : String → Except PyExc String
  download_audio : String → Except PyExc String
  transcribe_audio : String → Except PyExc String
  generate_summary : String → Except PyExc String

/-- The metadata step of `summarize_youtube_video` (src/main.py lines
290-301): try `extract_info`; on success read title/thumbnail/duration
with defaults for missing keys; on ANY failure (bare `except:`)
substitute the same defaults.  Returns (title, thumbnail, duration). -/
def videoMeta (d : SummarizeDeps) (video_url video_id : String) :
    String × String × String :=
  match d.extract_info video_url with
  | .ok info =>
    (info.title.getD "YouTube Video",
     info.thumbnail.getD ("https://img.youtube.com/vi/" ++ video_id ++ "/maxresdefault.jpg"),
     info.duration_string.getD "Unknown")
  | .error _ =>
    ("YouTube Video",
     "https://img.youtube.com/vi/" ++ video_id ++ "/maxresdefault.jpg",
     "Unknown")

/-- The inner `try` of the audio fallback branch (src/main.py lines
311-313): download the audio, transcribe it, summarize the
transcription; the first exception aborts the block. -/
def audioPipeline (d : SummarizeDeps) (video_url : String) : Except PyExc String :=
  match d.download_audio video_url with
  | .error e => .error e
  | .ok audio_path =>
    match d.transcribe_audio audio_path with
    | .error e => .error e
    | .ok transcript_text => d.generate_summary transcript_text

/-- The outer `try` block of `summarize_youtube_video` (src/main.py lines
282-325): resolve the video id (raising `HTTPException(400)` when it is
falsy), fetch best-effort metadata, prefer the transcript path, fall back
to the audio pipeline whose failures raise `HTTPException(500, "Audio
processing failed: ...")`, and assemble the response. -/
def summarizeBody (d : SummarizeDeps) (video_url : String) :
    Except PyExc VideoSummaryResponse :=
  match truthyOpt (d.get_video_id video_url) with
  | none => .error (.http 400 "Invalid YouTube URL")
  | some video_id =>
    let meta := videoMeta d video_url video_id
    match d.get_transcript video_id with
    | .error e => .error e
    | .ok transcriptOpt =>
      match truthyOpt transcriptOpt with
      | some transcript =>
        match d.summarize_transcript transcript with
        | .error e => .error e
        | .ok summary =>
          .ok ⟨video_id, meta.1, meta.2.1, summary, "transcript", some meta.2.2⟩
      | none =>
        match audioPipeline d video_url with
        | .error e => .error (.http 500 ("Audio processing failed: " ++ strOfExc e))
        | .ok summary =>
          .ok ⟨video_id, meta.1, meta.2.1, summary, "audio", some meta.2.2⟩

/-- `summarize_youtube_video` handler, `POST /api/summarize-youtube`
(src/main.py lines 279-330).  Unlike the generate-X endpoints, its
handlers are `except HTTPException: raise` (an `HTTPException` keeps its
status and detail) and then `except Exception as e: raise
HTTPException(500, "Error processing video: " ++ str(e))`. -/
def summarize_youtube_video (d : SummarizeDeps) (url : String) :
    Except HTTPError VideoSummaryResponse :=
  match summarizeBody d url with
  | .ok v => .ok v
  | .error (.http s dtl) => .error ⟨s, dtl⟩
  | .error (.other m) => .error ⟨500, "Error processing video: " ++ m⟩

/-- The dict returned by the `get_video_info` handler
(src/main.py lines 343-350). -/
structure VideoInfoResponse where
  video_id : String
  title : String
  thumbnail : String
  duration : String
  channel : String
  view_count : Nat
deriving DecidableEq, Repr

/-- `get_video_info` handler, `GET /api/video-info/{video_id}`
(src/main.py lines 332-352): build the watch URL, call `extract_info`,
read the fields with per-key defaults; ANY exception is re-raised as
`HTTPException(500, "Error fetching video info: " ++ str(e))` — there is
no inner absorbing handler here. -/
def get_video_info (extract_info : String → Except PyExc YtInfo)
    (video_id : String) : Except HTTPError VideoInfoResponse :=
  let video_url := "https://www.youtube.com/watch?v=" ++ video_id
  match extract_info video_url with
  | .ok info =>
    .ok { video_id := video_id,
          title := info.title.getD "YouTube Video",
          thumbnail := info.thumbnail.getD
            ("https://img.youtube.com/vi/" ++ video_id ++ "/maxresdefault.jpg"),
          duration := info.duration_string.getD "Unknown",
          channel := info.uploader.getD "Unknown Channel",
          view_count := info.view_count.getD 0 }
  | .error e => .error ⟨500, "Error fetching video info: " ++ strOfExc e⟩

/-- Projection of a summarize outcome onto the parts that do not come
from the best-effort metadata step: on success, (video_id, summary,
source); on failure, the error unchanged. -/
def coreOf : Except HTTPError VideoSummaryResponse →
    Except HTTPError (String × String × String)
  | .ok r => .ok (r.video_id, r.summary, r.source)
  | .error e => .error e

/-- A concrete uploaded file used to instantiate universally quantified
statements at explicit inputs. -/
def testFile : UploadFile := ⟨"notes.pdf", "raw bytes"⟩

/-- A concrete flashcard used to instantiate universally quantified
statements at explicit inputs. -/
def testCard : FlashcardResponse := ⟨"1", "What is DNA?", "Deoxyribonucleic acid", "easy"⟩

/-- Concrete YouTube-pipeline collaborators for which the URL resolves,
the metadata fetch fails, and a transcript is available. -/
def depsTranscript : SummarizeDeps :=
  ⟨fun _ => some "abc123",
   fun _ => .error (.other "network down"),
   fun _ => .ok (some "hello world"),
   fun t => .ok ("summary of " ++ t),
   fun _ => .error (.other "unreachable"),
   fun _ => .error (.other "unreachable"),
   fun _ => .error (.other "unreachable")⟩

/-- Concrete YouTube-pipeline collaborators for which the URL resolves,
no transcript exists, and the audio fallback chain succeeds. -/
def depsAudio : SummarizeDeps :=
  ⟨fun _ => some "abc123",
   fun _ => .ok ⟨some "A Title", some "http://t.jpg", some "10:00", none, none⟩,
   fun _ => .ok none,
   fun _ => .error (.other "unreachable"),
   fun _ => .ok "/tmp/audio.mp3",
   fun p => .ok ("text of " ++ p),
   fun t => .ok ("summary of " ++ t)⟩

/-- Concrete YouTube-pipeline collaborators for which the URL resolves,
no transcript exists, and audio download fails. -/
def depsAudioFail : SummarizeDeps :=
  ⟨fun _ => some "abc123",
   fun _ => .error (.other "network down"),
   fun _ => .ok none,
   fun _ => .error (.other "unreachable"),
   fun _ => .error (.other "download blocked"),
   fun _ => .error (.other "unreachable"),
   fun _ => .error (.other "unreachable")⟩

/-! Helper lemmas about the shared generate-X endpoint shape. -/

/-- When the extraction collaborator raises `e` on the supplied file, the
endpoint returns the 500 wrapping of `e`. -/
theorem generateEndpoint_extract_error {β : Type} {opName : String}
    {puf : UploadFile → Except PyExc String} {gen : String → Except PyExc β}
    {f : UploadFile} {t : Option String} {e : PyExc} (h : puf f = .error e) :
    generateEndpoint opName puf gen (some f) t =
      .error ⟨500, "Error " ++ opName ++ ": " ++ strOfExc e⟩ := by
  simp only [generateEndpoint, endpointBody, h]

/-- When extraction succeeds with `c` and the generation collaborator
raises `e` on `c`, the endpoint returns the 500 wrapping of `e`. -/
theorem generateEndpoint_generate_error_file {β : Type} {opName : String}
    {puf : UploadFile → Except PyExc String} {gen : String → Except PyExc β}
    {f : UploadFile} {t : Option String} {c : String} {e : PyExc}
    (h1 : puf f = .ok c) (h2 : gen c = .error e) :
    generateEndpoint opName puf gen (some f) t =
      .error ⟨500, "Error " ++ opName ++ ": " ++ strOfExc e⟩ := by
  simp only [generateEndpoint, endpointBody, h1, h2]

/-- When only nonempty text is supplied and the generation collaborator
raises `e` on it, the endpoint returns the 500 wrapping of `e`. -/
theorem generateEndpoint_generate_error_text {β : Type} {opName : String}
    {puf : UploadFile → Except PyExc String} {gen : String → Except PyExc β}
    {t : String} {e : PyExc} (h1 : t ≠ "") (h2 : gen t = .error e) :
    generateEndpoint opName puf gen none (some t) =
      .error ⟨500, "Error " ++ opName ++ ": " ++ strOfExc e⟩ := by
  simp only [generateEndpoint, endpointBody, if_neg h1, h2]

/-- When only nonempty text is supplied and the generation collaborator
returns `r` on it, the endpoint returns `r` verbatim. -/
theorem generateEndpoint_text_ok {β : Type} {opName : String}
    {puf : UploadFile → Except PyExc String} {gen : String → Except PyExc β}
    {t : String} {r : β} (h1 : t ≠ "") (h2 : gen t = .ok r) :
    generateEndpoint opName puf gen none (some t) = .ok r := by
  simp only [generateEndpoint, endpointBody, if_neg h1, h2]

/-- When a file is supplied, extraction returns `c` and generation
returns `r` on `c`, the endpoint returns `r` verbatim, whatever `text`
holds. -/
theorem generateEndpoint_file_ok {β : Type} {opName : String}
    {puf : UploadFile → Except PyExc String} {gen : String → Except PyExc β}
    {f : UploadFile} {t : Option String} {c : String} {r : β}
    (h1 : puf f = .ok c) (h2 : gen c = .ok r) :
    generateEndpoint opName puf gen (some f) t = .ok r := by
  simp only [generateEndpoint, endpointBody, h1, h2]

/-- C1 (code bug evidence): on a request with neither file nor text,
every generate-X endpoint returns HTTP **500** (not the 4xx the spec
states): the `HTTPException(400, "Please provide either a file or
text")` raised inside the `try` is caught by the endpoint's own blanket
`except Exception` and re-raised as a 500 whose detail wraps the
stringified 400.  The result is the same for every choice of extraction
and generation collaborator, so neither collaborator is invoked. -/
theorem C1_missing_input_yields_500_not_4xx :
    (∀ puf gen, create_flashcards puf gen none none =
      .error ⟨500, "Error generating flashcards: 400: Please provide either a file or text"⟩)
    ∧ (∀ puf gen, create_mcqs puf gen none none =
      .error ⟨500, "Error generating MCQs: 400: Please provide either a file or text"⟩)
    ∧ (∀ puf gen, create_mindmap puf gen none none =
      .error ⟨500, "Error generating mind map: 400: Please provide either a file or text"⟩)
    ∧ (∀ puf gen, create_learning_path puf gen none none =
      .error ⟨500, "Error generating learning path: 400: Please provide either a file or text"⟩)
    ∧ (∀ puf gen, create_smart_sticky_notes puf gen none none =
      .error ⟨500, "Error generating sticky notes: 400: Please provide either a file or text"⟩)
    ∧ (∀ puf gen, create_exam_questions puf gen none none =
      .error ⟨500, "Error generating exam questions: 400: Please provide either a file or text"⟩) := by
  refine ⟨?_, ?_, ?_, ?_, ?_, ?_⟩ <;> intro puf gen <;> rfl

/-- C7: the health endpoint returns exactly
`{"status": "healthy", "version": "1.0.0"}`; it reads no input and no
state, so this holds for every request. -/
theorem C7_health_constant :
    health_check = { status := "healthy", version := "1.0.0" } := rfl

/-- C8: on every generate-X endpoint, empty-string text with no file is
treated exactly like no input at all: the missing-input error branch is
taken, and the outcome is the same for every choice of extraction and
generation collaborator in either request, so no collaborator is ever
invoked with empty text. -/
theorem C8_empty_text_is_missing_input :
    (∀ puf gen pufB genB, create_flashcards puf gen none (some "") =
      create_flashcards pufB genB none none)
    ∧ (∀ puf gen pufB genB, create_mcqs puf gen none (some "") =
      create_mcqs pufB genB none none)
    ∧ (∀ puf gen pufB genB, create_mindmap puf gen none (some "") =
      create_mindmap pufB genB none none)
    ∧ (∀ puf gen pufB genB, create_learning_path puf gen none (some "") =
      create_learning_path pufB genB none none)
    ∧ (∀ puf gen pufB genB, create_smart_sticky_notes puf gen none (some "") =
      create_smart_sticky_notes pufB genB none none)
    ∧ (∀ puf gen pufB genB, create_exam_questions puf gen none (some "") =
      create_exam_questions pufB genB none none) := by
  refine ⟨?_, ?_, ?_, ?_, ?_, ?_⟩ <;> intro puf gen pufB genB <;> rfl

/-- C3: on every generate-X endpoint, an exception `e` raised by the
extraction collaborator (on the supplied file), or by the generation
collaborator (on extracted content or on supplied text), is caught at
the endpoint boundary and re-signaled as HTTP 500 with detail
`"Error <doing X>: " ++ str(e)`; the collaborator result is the whole
outcome, so nothing partial is returned and no retry happens. -/
theorem C3_collaborator_exceptions_become_500 :
    ((∀ puf gen f t e, puf f = .error e → create_flashcards puf gen (some f) t =
        .error ⟨500, "Error generating flashcards: " ++ strOfExc e⟩)
     ∧ (∀ puf gen f t c e, puf f = .ok c → gen c = .error e →
        create_flashcards puf gen (some f) t =
          .error ⟨500, "Error generating flashcards: " ++ strOfExc e⟩)
     ∧ (∀ puf gen t e, t ≠ "" → gen t = .error e →
        create_flashcards puf gen none (some t) =
          .error ⟨500, "Error generating flashcards: " ++ strOfExc e⟩))
    ∧ ((∀ puf gen f t e, puf f = .error e → create_mcqs puf gen (some f) t =
        .error ⟨500, "Error generating MCQs: " ++ strOfExc e⟩)
     ∧ (∀ puf gen f t c e, puf f = .ok c → gen c = .error e →
        create_mcqs puf gen (some f) t =
          .error ⟨500, "Error generating MCQs: " ++ strOfExc e⟩)
     ∧ (∀ puf gen t e, t ≠ "" → gen t = .error e →
        create_mcqs puf gen none (some t) =
          .error ⟨500, "Error generating MCQs: " ++ strOfExc e⟩))
    ∧ ((∀ puf gen f t e, puf f = .error e → create_mindmap puf gen (some f) t =
        .error ⟨500, "Error generating mind map: " ++ strOfExc e⟩)
     ∧ (∀ puf gen f t c e, puf f = .ok c → gen c = .error e →
        create_mindmap puf gen (some f) t =
          .error ⟨500, "Error generating mind map: " ++ strOfExc e⟩)
     ∧ (∀ puf gen t e, t ≠ "" → gen t = .error e →
        create_mindmap puf gen none (some t) =
          .error ⟨500, "Error generating mind map: " ++ strOfExc e⟩))
    ∧ ((∀ puf gen f t e, puf f = .error e → create_learning_path puf gen (some f) t =
        .error ⟨500, "Error generating learning path: " ++ strOfExc e⟩)
     ∧ (∀ puf gen f t c e, puf f = .ok c → gen c = .error e →
        create_learning_path puf gen (some f) t =
          .error ⟨500, "Error generating learning path: " ++ strOfExc e⟩)
     ∧ (∀ puf gen t e, t ≠ "" → gen t = .error e →
        create_learning_path puf gen none (some t) =
          .error ⟨500, "Error generating learning path: " ++ strOfExc e⟩))
    ∧ ((∀ puf gen f t e, puf f = .error e → create_smart_sticky_notes puf gen (some f) t =
        .error ⟨500, "Error generating sticky notes: " ++ strOfExc e⟩)
     ∧ (∀ puf gen f t c e, puf f = .ok c → gen c = .error e →
        create_smart_sticky_notes puf gen (some f) t =
          .error ⟨500, "Error generating sticky notes: " ++ strOfExc e⟩)
     ∧ (∀ puf gen t e, t ≠ "" → gen t = .error e →
        create_smart_sticky_notes puf gen none (some t) =
          .error ⟨500, "Error generating sticky notes: " ++ strOfExc e⟩))
    ∧ ((∀ puf gen f t e, puf f = .error e → create_exam_questions puf gen (some f) t =
        .error ⟨500, "Error generating exam questions: " ++ strOfExc e⟩)
     ∧ (∀ puf gen f t c e, puf f = .ok c → gen c = .error e →
        create_exam_questions puf gen (some f) t =
          .error ⟨500, "Error generating exam questions: " ++ strOfExc e⟩)
     ∧ (∀ puf gen t e, t ≠ "" → gen t = .error e →
        create_exam_questions puf gen none (some t) =
          .error ⟨500, "Error generating exam questions: " ++ strOfExc e⟩)) := by
  refine ⟨?_, ?_, ?_, ?_, ?_, ?_⟩ <;>
    exact ⟨fun _ _ _ _ _ h => generateEndpoint_extract_error h,
           fun _ _ _ _ _ _ h1 h2 => generateEndpoint_generate_error_file h1 h2,
           fun _ _ _ _ h1 h2 => generateEndpoint_generate_error_text h1 h2⟩

/-- C3 witness: a concrete extraction failure on the flashcards endpoint
is re-signaled as the 500 with the wrapped message. -/
theorem C3_witness :
    create_flashcards (fun _ => .error (.other "disk full")) (fun _ => .ok [])
        (some testFile) none =
      .error ⟨500, "Error generating flashcards: disk full"⟩ :=
  C3_collaborator_exceptions_become_500.1.1
    (fun _ => .error (.other "disk full")) (fun _ => .ok []) testFile none
    (.other "disk full") rfl

/-- C5: on every generate-X endpoint, with no file and nonempty text the
supplied text is passed unchanged to the generation collaborator and its
successful result is returned verbatim as the response body; moreover
the outcome never depends on the extraction collaborator (it is not
invoked), whatever text is supplied. -/
theorem C5_text_only_bypasses_extraction :
    ((∀ puf gen t r, t ≠ "" → gen t = .ok r →
        create_flashcards puf gen none (some t) = .ok r)
     ∧ (∀ puf pufB gen t, create_flashcards puf gen none t =
        create_flashcards pufB gen none t))
    ∧ ((∀ puf gen t r, t ≠ "" → gen t = .ok r →
        create_mcqs puf gen none (some t) = .ok r)
     ∧ (∀ puf pufB gen t, create_mcqs puf gen none t =
        create_mcqs pufB gen none t))
    ∧ ((∀ puf gen t r, t ≠ "" → gen t = .ok r →
        create_mindmap puf gen none (some t) = .ok r)
     ∧ (∀ puf pufB gen t, create_mindmap puf gen none t =
        create_mindmap pufB gen none t))
    ∧ ((∀ puf gen t r, t ≠ "" → gen t = .ok r →
        create_learning_path puf gen none (some t) = .ok r)
     ∧ (∀ puf pufB gen t, create_learning_path puf gen none t =
        create_learning_path pufB gen none t))
    ∧ ((∀ puf gen t r, t ≠ "" → gen t = .ok r →
        create_smart_sticky_notes puf gen none (some t) = .ok r)
     ∧ (∀ puf pufB gen t, create_smart_sticky_notes puf gen none t =
        create_smart_sticky_notes pufB gen none t))
    ∧ ((∀ puf gen t r, t ≠ "" → gen t = .ok r →
        create_exam_questions puf gen none (some t) = .ok r)
     ∧ (∀ puf pufB gen t, create_exam_questions puf gen none t =
        create_exam_questions pufB gen none t)) := by
  refine ⟨?_, ?_, ?_, ?_, ?_, ?_⟩ <;>
    exact ⟨fun _ _ _ _ h1 h2 => generateEndpoint_text_ok h1 h2,
           fun _ _ _ _ => rfl⟩

/-- C5 witness: concrete text-only flashcards request returning the
generation collaborator's list verbatim. -/
theorem C5_witness :
    create_flashcards (fun _ => .error (.other "never called"))
        (fun _ => .ok [testCard]) none (some "Biology notes") = .ok [testCard] :=
  C5_text_only_bypasses_extraction.1.1
    (fun _ => .error (.other "never called")) (fun _ => .ok [testCard])
    "Biology notes" [testCard] (by decide) rfl

/-- C9: on every generate-X endpoint, when both a file and text are
supplied the file wins: the generation collaborator is applied to the
extraction collaborator's output and its result returned, and the
outcome is identical to the same request without the text field. -/
theorem C9_file_takes_precedence_over_text :
    ((∀ puf gen f t c r, puf f = .ok c → gen c = .ok r →
        create_flashcards puf gen (some f) (some t) = .ok r)
     ∧ (∀ puf gen f t, create_flashcards puf gen (some f) (some t) =
        create_flashcards puf gen (some f) none))
    ∧ ((∀ puf gen f t c r, puf f = .ok c → gen c = .ok r →
        create_mcqs puf gen (some f) (some t) = .ok r)
     ∧ (∀ puf gen f t, create_mcqs puf gen (some f) (some t) =
        create_mcqs puf gen (some f) none))
    ∧ ((∀ puf gen f t c r, puf f = .ok c → gen c = .ok r →
        create_mindmap puf gen (some f) (some t) = .ok r)
     ∧ (∀ puf gen f t, create_mindmap puf gen (some f) (some t) =
        create_mindmap puf gen (some f) none))
    ∧ ((∀ puf gen f t c r, puf f = .ok c → gen c = .ok r →
        create_learning_path puf gen (some f) (some t) = .ok r)
     ∧ (∀ puf gen f t, create_learning_path puf gen (some f) (some t) =
        create_learning_path puf gen (some f) none))
    ∧ ((∀ puf gen f t c r, puf f = .ok c → gen c = .ok r →
        create_smart_sticky_notes puf gen (some f) (some t) = .ok r)
     ∧ (∀ puf gen f t, create_smart_sticky_notes puf gen (some f) (some t) =
        create_smart_sticky_notes puf gen (some f) none))
    ∧ ((∀ puf gen f t c r, puf f = .ok c → gen c = .ok r →
        create_exam_questions puf gen (some f) (some t) = .ok r)
     ∧ (∀ puf gen f t, create_exam_questions puf gen (some f) (some t) =
        create_exam_questions puf gen (some f) none)) := by
  refine ⟨?_, ?_, ?_, ?_, ?_, ?_⟩ <;>
    exact ⟨fun _ _ _ _ _ _ h1 h2 => generateEndpoint_file_ok h1 h2,
           fun _ _ _ _ => rfl⟩

/-- C9 witness: with both a file and text supplied, the flashcards
endpoint returns the generator applied to the extracted file content
("FILE CONTENT"), ignoring the text ("ignored text"). -/
theorem C9_witness :
    create_flashcards (fun _ => .ok "FILE CONTENT")
        (fun c => .ok [⟨"1", c, c, "easy"⟩]) (some testFile) (some "ignored text") =
      .ok [⟨"1", "FILE CONTENT", "FILE CONTENT", "easy"⟩] :=
  C9_file_takes_precedence_over_text.1.1
    (fun _ => .ok "FILE CONTENT") (fun c => .ok [⟨"1", c, c, "easy"⟩])
    testFile "ignored text" "FILE CONTENT" [⟨"1", "FILE CONTENT", "FILE CONTENT", "easy"⟩]
    rfl rfl

/-! Helper lemmas about the YouTube summarization pipeline. -/

/-- The metadata step substitutes the three documented defaults whenever
`extract_info` raises. -/
theorem videoMeta_error {d : SummarizeDeps} {video_url : String} {e : PyExc}
    (video_id : String) (h : d.extract_info video_url = .error e) :
    videoMeta d video_url video_id =
      ("YouTube Video",
       "https://img.youtube.com/vi/" ++ video_id ++ "/maxresdefault.jpg",
       "Unknown") := by
  simp only [videoMeta, h]

/-- Transcript path: a truthy video id, a truthy transcript and a
successful summarization produce the `"transcript"`-sourced response,
whatever the metadata step did. -/
theorem summarize_transcript_path {d : SummarizeDeps} {url id : String}
    {tOpt : Option String} {t s : String}
    (h1 : truthyOpt (d.get_video_id url) = some id)
    (h2 : d.get_transcript id = .ok tOpt)
    (h3 : truthyOpt tOpt = some t)
    (h4 : d.summarize_transcript t = .ok s) :
    summarize_youtube_video d url =
      .ok ⟨id, (videoMeta d url id).1, (videoMeta d url id).2.1, s,
           "transcript", some (videoMeta d url id).2.2⟩ := by
  simp only [summarize_youtube_video, summarizeBody, h1, h2, h3, h4]

/-- Audio path: a truthy video id, a falsy transcript and a successful
audio pipeline produce the `"audio"`-sourced response, whatever the
metadata step did. -/
theorem summarize_audio_path {d : SummarizeDeps} {url id : String}
    {tOpt : Option String} {s : String}
    (h1 : truthyOpt (d.get_video_id url) = some id)
    (h2 : d.get_transcript id = .ok tOpt)
    (h3 : truthyOpt tOpt = none)
    (h4 : audioPipeline d url = .ok s) :
    summarize_youtube_video d url =
      .ok ⟨id, (videoMeta d url id).1, (videoMeta d url id).2.1, s,
           "audio", some (videoMeta d url id).2.2⟩ := by
  simp only [summarize_youtube_video, summarizeBody, h1, h2, h3, h4]

/-- Audio path failure: a truthy video id, a falsy transcript and a
failing audio pipeline yield the 500 "Audio processing failed" error. -/
theorem summarize_audio_fail {d : SummarizeDeps} {url id : String}
    {tOpt : Option String} {e : PyExc}
    (h1 : truthyOpt (d.get_video_id url) = some id)
    (h2 : d.get_transcript id = .ok tOpt)
    (h3 : truthyOpt tOpt = none)
    (h4 : audioPipeline d url = .error e) :
    summarize_youtube_video d url =
      .error ⟨500, "Audio processing failed: " ++ strOfExc e⟩ := by
  simp only [summarize_youtube_video, summarizeBody, h1, h2, h3, h4]

/-- A failing audio download fails the audio pipeline with that cause. -/
theorem audioPipeline_download_error {d : SummarizeDeps} {url : String} {e : PyExc}
    (h : d.download_audio url = .error e) : audioPipeline d url = .error e := by
  simp only [audioPipeline, h]

/-- A failing transcription fails the audio pipeline with that cause. -/
theorem audioPipeline_transcribe_error {d : SummarizeDeps} {url a : String} {e : PyExc}
    (h1 : d.download_audio url = .ok a) (h2 : d.transcribe_audio a = .error e) :
    audioPipeline d url = .error e := by
  simp only [audioPipeline, h1, h2]

/-- A failing summarization fails the audio pipeline with that cause. -/
theorem audioPipeline_summary_error {d : SummarizeDeps} {url a tr : String} {e : PyExc}
    (h1 : d.download_audio url = .ok a) (h2 : d.transcribe_audio a = .ok tr)
    (h3 : d.generate_summary tr = .error e) : audioPipeline d url = .error e := by
  simp only [audioPipeline, h1, h2, h3]

/-- C2: the summarize-youtube endpoint (i) marks the response
`source = "transcript"` when the URL resolves to a truthy id, a truthy
transcript exists and its summarization succeeds; (ii) marks it
`source = "audio"` when the id is truthy, no truthy transcript exists
and the audio fallback chain succeeds; (iii) fails with exactly
HTTP 400 "Invalid YouTube URL" when no id can be extracted — the same
outcome for every behaviour of the transcript, download, transcription
and summarization collaborators, which are therefore never invoked. -/
theorem C2_summarize_source_and_invalid_url :
    (∀ (d : SummarizeDeps) url id tOpt t s,
      truthyOpt (d.get_video_id url) = some id →
      d.get_transcript id = .ok tOpt →
      truthyOpt tOpt = some t →
      d.summarize_transcript t = .ok s →
      coreOf (summarize_youtube_video d url) = .ok (id, s, "transcript"))
    ∧ (∀ (d : SummarizeDeps) url id tOpt s,
      truthyOpt (d.get_video_id url) = some id →
      d.get_transcript id = .ok tOpt →
      truthyOpt tOpt = none →
      audioPipeline d url = .ok s →
      coreOf (summarize_youtube_video d url) = .ok (id, s, "audio"))
    ∧ (∀ (d : SummarizeDeps) url,
      truthyOpt (d.get_video_id url) = none →
      summarize_youtube_video d url = .error ⟨400, "Invalid YouTube URL"⟩) := by
  refine ⟨?_, ?_, ?_⟩
  · intro d url id tOpt t s h1 h2 h3 h4
    rw [summarize_transcript_path h1 h2 h3 h4]
    rfl
  · intro d url id tOpt s h1 h2 h3 h4
    rw [summarize_audio_path h1 h2 h3 h4]
    rfl
  · intro d url h
    simp only [summarize_youtube_video, summarizeBody, h]

/-- C2 witness: with collaborators for which no transcript exists and
the audio chain succeeds, the result is an `"audio"`-sourced summary. -/
theorem C2_witness :
    coreOf (summarize_youtube_video depsAudio "https://youtu.be/abc123") =
      .ok ("abc123", "summary of text of /tmp/audio.mp3", "audio") :=
  C2_summarize_source_and_invalid_url.2.1 depsAudio "https://youtu.be/abc123"
    "abc123" none "summary of text of /tmp/audio.mp3" rfl rfl rfl rfl

/-- C4: (i) when the metadata fetch raises, an otherwise successful
summarization still succeeds and carries exactly the documented
defaults — title "YouTube Video", the thumbnail URL built from the
video id, duration "Unknown"; (ii) replacing the metadata collaborator
by ANY other (failing or not) never changes the outcome of the request
outside the three decorative metadata fields: status, video id, summary
and source are untouched. -/
theorem C4_metadata_failure_absorbed :
    (∀ (d : SummarizeDeps) url id tOpt t s e,
      truthyOpt (d.get_video_id url) = some id →
      d.extract_info url = .error e →
      d.get_transcript id = .ok tOpt →
      truthyOpt tOpt = some t →
      d.summarize_transcript t = .ok s →
      summarize_youtube_video d url =
        .ok ⟨id, "YouTube Video",
             "https://img.youtube.com/vi/" ++ id ++ "/maxresdefault.jpg",
             s, "transcript", some "Unknown"⟩)
    ∧ (∀ (d : SummarizeDeps) (f : String → Except PyExc YtInfo) url,
      coreOf (summarize_youtube_video d url) =
        coreOf (summarize_youtube_video { d with extract_info := f } url)) := by
  constructor
  · intro d url id tOpt t s e h1 h2 h3 h4 h5
    rw [summarize_transcript_path h1 h3 h4 h5, videoMeta_error id h2]
  · intro d f url
    obtain ⟨gvi, ei, gt, st, da, ta, gs⟩ := d
    cases h1 : truthyOpt (gvi url) with
    | none =>
      simp only [summarize_youtube_video, summarizeBody, h1, coreOf]
    | some vid =>
      cases h2 : gt vid with
      | error e =>
        cases e <;>
          simp only [summarize_youtube_video, summarizeBody, h1, h2, coreOf]
      | ok tOpt =>
        cases h3 : truthyOpt tOpt with
        | some t =>
          cases h4 : st t with
          | error e =>
            cases e <;>
              simp only [summarize_youtube_video, summarizeBody, h1, h2, h3, h4, coreOf]
          | ok s =>
            simp only [summarize_youtube_video, summarizeBody, h1, h2, h3, h4, coreOf]
        | none =>
          cases h4 : audioPipeline ⟨gvi, ei, gt, st, da, ta, gs⟩ url with
          | error e =>
            have h4B : audioPipeline ⟨gvi, f, gt, st, da, ta, gs⟩ url = .error e := h4
            simp only [summarize_youtube_video, summarizeBody, h1, h2, h3, h4, h4B, coreOf]
          | ok s =>
            have h4B : audioPipeline ⟨gvi, f, gt, st, da, ta, gs⟩ url = .ok s := h4
            simp only [summarize_youtube_video, summarizeBody, h1, h2, h3, h4, h4B, coreOf]

/-- C4 witness: with a failing metadata collaborator and an available
transcript, the summarization succeeds with the three defaults. -/
theorem C4_witness :
    summarize_youtube_video depsTranscript "https://youtu.be/abc123" =
      .ok ⟨"abc123", "YouTube Video",
           "https://img.youtube.com/vi/abc123/maxresdefault.jpg",
           "summary of hello world", "transcript", some "Unknown"⟩ :=
  C4_metadata_failure_absorbed.1 depsTranscript "https://youtu.be/abc123"
    "abc123" (some "hello world") "hello world" "summary of hello world"
    (.other "network down") rfl rfl rfl rfl rfl

/-- C6: in the audio fallback branch (truthy id, no truthy transcript),
an exception raised by audio download, by transcription, or by the
summary generation is terminal: the endpoint answers HTTP 500 with
detail `"Audio processing failed: " ++ str(e)` wrapping the cause. -/
theorem C6_audio_fallback_failures_are_500 :
    (∀ (d : SummarizeDeps) url id tOpt e,
      truthyOpt (d.get_video_id url) = some id →
      d.get_transcript id = .ok tOpt →
      truthyOpt tOpt = none →
      d.download_audio url = .error e →
      summarize_youtube_video d url =
        .error ⟨500, "Audio processing failed: " ++ strOfExc e⟩)
    ∧ (∀ (d : SummarizeDeps) url id tOpt a e,
      truthyOpt (d.get_video_id url) = some id →
      d.get_transcript id = .ok tOpt →
      truthyOpt tOpt = none →
      d.download_audio url = .ok a →
      d.transcribe_audio a = .error e →
      summarize_youtube_video d url =
        .error ⟨500, "Audio processing failed: " ++ strOfExc e⟩)
    ∧ (∀ (d : SummarizeDeps) url id tOpt a tr e,
      truthyOpt (d.get_video_id url) = some id →
      d.get_transcript id = .ok tOpt →
      truthyOpt tOpt = none →
      d.download_audio url = .ok a →
      d.transcribe_audio a = .ok tr →
      d.generate_summary tr = .error e →
      summarize_youtube_video d url =
        .error ⟨500, "Audio processing failed: " ++ strOfExc e⟩) := by
  refine ⟨?_, ?_, ?_⟩
  · intro d url id tOpt e h1 h2 h3 h4
    exact summarize_audio_fail h1 h2 h3 (audioPipeline_download_error h4)
  · intro d url id tOpt a e h1 h2 h3 h4 h5
    exact summarize_audio_fail h1 h2 h3 (audioPipeline_transcribe_error h4 h5)
  · intro d url id tOpt a tr e h1 h2 h3 h4 h5 h6
    exact summarize_audio_fail h1 h2 h3 (audioPipeline_summary_error h4 h5 h6)

/-- C6 witness: a concrete failing audio download yields the wrapped
500 error. -/
theorem C6_witness :
    summarize_youtube_video depsAudioFail "https://youtu.be/abc123" =
      .error ⟨500, "Audio processing failed: download blocked"⟩ :=
  C6_audio_fallback_failures_are_500.1 depsAudioFail "https://youtu.be/abc123"
    "abc123" none (.other "download blocked") rfl rfl rfl rfl

/-- C10: the video-info endpoint does NOT absorb metadata failures: when
`extract_info` raises `e` on the watch URL built from the path's video
id, the endpoint answers HTTP 500 with detail
`"Error fetching video info: " ++ str(e)` and substitutes no defaults. -/
theorem C10_video_info_propagates_metadata_errors :
    ∀ (extract_info : String → Except PyExc YtInfo) video_id e,
      extract_info ("https://www.youtube.com/watch?v=" ++ video_id) = .error e →
      get_video_info extract_info video_id =
        .error ⟨500, "Error fetching video info: " ++ strOfExc e⟩ := by
  intro ei vid e h
  simp only [get_video_info, h]

/-- C10 witness: a concrete `extract_info` failure surfaces as the
wrapped 500 error. -/
theorem C10_witness :
    get_video_info (fun _ => .error (.other "video unavailable")) "abc123" =
      .error ⟨500, "Error fetching video info: video unavailable"⟩ :=
  C10_video_info_propagates_metadata_errors
    (fun _ => .error (.other "video unavailable")) "abc123"
    (.other "video unavailable") rfl
